import Mathlib

/-!
# Verification of the libgreat LPC43xx SGPIO / clock / ringbuffer drivers

A shallow embedding of the driver code in
`firmware/platform/lpc43xx/drivers/sgpio.c`,
`firmware/platform/lpc43xx/drivers/sgpio_data.c`,
`firmware/platform/lpc43xx/drivers/platform_clock.c` and the generic
ringbuffer, together with theorems settling the specification claims.

Machine integers are modelled as `Nat` with explicit `% 2^w` reductions at
the points where the C code truncates (bit-field stores, `uint8_t`
narrowing, `uint64_t` index arithmetic).  Registers are modelled as a
record of index-addressed fields; memory-mapped side effects outside the
SGPIO block (SCU pin multiplexing, NVIC handler installation, the literal
machine-code bytes of the generated ISR) are not observable by any claim
and are not represented.
-/

namespace Libgreat

/-- Pointwise update of an index-addressed register file. -/
def upd {α : Type} (f : Nat → α) (i : Nat) (v : α) : Nat → α :=
  fun j => if j = i then v else f j

/-! ## errno constants (as returned by the C code) -/

def EINVAL : Int := 22
def EBUSY : Int := 16
def ENOMEM : Int := 12
def ENOSYS : Int := 88
def ETIMEDOUT : Int := 116
def EIO : Int := 5

/-! ## SGPIO constants (drivers/sgpio.h) -/

def SGPIO_NUM_PINS : Nat := 16
def SGPIO_NUM_SLICES : Nat := 16
def SGPIO_BITS_PER_SLICE : Nat := 32
def SGPIO_MAXIMUM_SLICE_CHAIN_DEPTH : Nat := 8

/-- Slice letters A..P as numeric indices, matching the `SGPIO_SLICE_x` enum. -/
def SGPIO_SLICE_A : Nat := 0
def SGPIO_SLICE_B : Nat := 1
def SGPIO_SLICE_C : Nat := 2
def SGPIO_SLICE_D : Nat := 3
def SGPIO_SLICE_E : Nat := 4
def SGPIO_SLICE_F : Nat := 5
def SGPIO_SLICE_G : Nat := 6
def SGPIO_SLICE_H : Nat := 7
def SGPIO_SLICE_I : Nat := 8
def SGPIO_SLICE_J : Nat := 9
def SGPIO_SLICE_K : Nat := 10
def SGPIO_SLICE_L : Nat := 11
def SGPIO_SLICE_M : Nat := 12
def SGPIO_SLICE_N : Nat := 13
def SGPIO_SLICE_O : Nat := 14
def SGPIO_SLICE_P : Nat := 15

/-! ## Slice lookup tables (sgpio.c lines 180-292) -/

/-- `sgpio_slice_for_io`: pin-to-I/O-slice table, with the `pin >= SGPIO_NUM_PINS`
guard returning `-EINVAL` exactly as the C function does. -/
def sgpio_slice_for_io (pin : Nat) : Int :=
  let input_slice_mappings : List Nat :=
    [SGPIO_SLICE_A, SGPIO_SLICE_I, SGPIO_SLICE_E, SGPIO_SLICE_J,
     SGPIO_SLICE_C, SGPIO_SLICE_K, SGPIO_SLICE_F, SGPIO_SLICE_L,
     SGPIO_SLICE_B, SGPIO_SLICE_M, SGPIO_SLICE_G, SGPIO_SLICE_N,
     SGPIO_SLICE_D, SGPIO_SLICE_O, SGPIO_SLICE_H, SGPIO_SLICE_P]
  if pin ≥ SGPIO_NUM_PINS then -EINVAL
  else Int.ofNat (input_slice_mappings.getD pin 0)

/-- `sgpio_io_pin_for_slice`: linear search of the I/O table for a pin that maps
to the given slice; `-EINVAL` when none does. -/
def sgpio_io_pin_for_slice (slice : Nat) : Int :=
  match (List.range SGPIO_NUM_PINS).find? (fun i => sgpio_slice_for_io i = Int.ofNat slice) with
  | some i => Int.ofNat i
  | none => -EINVAL

/-- `sgpio_slice_for_clockgen`: pin-to-clock-generation-slice table.  The C code
indexes the 16-entry table without a bounds check; pins above 15 are undefined
behaviour there and default to 0 here. -/
def sgpio_slice_for_clockgen (pin : Nat) : Nat :=
  let clockgen_slice_mappings : List Nat :=
    [SGPIO_SLICE_B, SGPIO_SLICE_D, SGPIO_SLICE_E, SGPIO_SLICE_H,
     SGPIO_SLICE_C, SGPIO_SLICE_F, SGPIO_SLICE_O, SGPIO_SLICE_P,
     SGPIO_SLICE_A, SGPIO_SLICE_M, SGPIO_SLICE_G, SGPIO_SLICE_N,
     SGPIO_SLICE_I, SGPIO_SLICE_J, SGPIO_SLICE_K, SGPIO_SLICE_L]
  clockgen_slice_mappings.getD pin 0

/-- `sgpio_slice_for_direction`: direction-slice lookup per bus width (-1 for an
invalid width, as in the C code). -/
def sgpio_slice_for_direction (pin : Nat) (bus_width : Nat) : Int :=
  let direction_slice_mappings_2bit : List Nat :=
    [SGPIO_SLICE_H, SGPIO_SLICE_D, SGPIO_SLICE_G, SGPIO_SLICE_O,
     SGPIO_SLICE_P, SGPIO_SLICE_B, SGPIO_SLICE_N, SGPIO_SLICE_M]
  let direction_slice_mappings_4bit : List Nat :=
    [SGPIO_SLICE_H, SGPIO_SLICE_O, SGPIO_SLICE_P, SGPIO_SLICE_N]
  let direction_slice_mappings_8bit : List Nat :=
    [SGPIO_SLICE_H, SGPIO_SLICE_O, SGPIO_SLICE_P, SGPIO_SLICE_N]
  match bus_width with
  | 8 => Int.ofNat (direction_slice_mappings_8bit.getD (pin / 8) 0)
  | 4 => Int.ofNat (direction_slice_mappings_4bit.getD (pin / 8) 0)
  | 2 => Int.ofNat (direction_slice_mappings_2bit.getD (pin / 2) 0)
  | 1 => sgpio_slice_for_io (pin + SGPIO_NUM_SLICES / 2)
  | _ => -1

/-- Conversion of a C `int` to `uint8_t` (two's complement, mod 256). -/
def toUint8 (i : Int) : Nat := (i % 256).toNat

/-- `sgpio_slice_in_concatenation`: the slice at a given depth in the chain
rooted at `io_slice`.  The C routine stores the pin lookup in a `uint8_t`
before adding the depth. -/
def sgpio_slice_in_concatenation (io_slice : Nat) (depth : Nat) : Int :=
  sgpio_slice_for_io (toUint8 (sgpio_io_pin_for_slice io_slice) + depth)

/-! ## SGPIO data model (drivers/sgpio.h) -/

/-- `sgpio_function_mode_t`. -/
inductive SgpioMode where
  | stream_data_in
  | stream_data_out
  | fixed_data_out
  | stream_bidirectional
  | clock_generation
deriving DecidableEq

/-- `sgpio_pin_configuration_t`. -/
structure PinConfig where
  sgpio_pin : Nat := 0
  scu_group : Nat := 0
  scu_pin : Nat := 0
  pull_resistors : Nat := 0
deriving DecidableEq

/-- `sgpio_shift_config_register_t` (SGPIO_MUX_CFG).  Field widths in bits are
1/2/2/2/2/2/1/2; stores are reduced modulo the field width at the write site. -/
structure ShiftConfig where
  use_external_clock : Nat := 0
  clock_source_pin : Nat := 0
  clock_source_slice : Nat := 0
  shift_qualifier_mode : Nat := 0
  shift_qualifier_pin : Nat := 0
  shift_qualifier_slice : Nat := 0
  enable_concatenation : Nat := 0
  concatenation_order : Nat := 0
deriving DecidableEq

/-- `sgpio_feature_control_register_t` (SLICE_MUX_CFG). -/
structure FeatureControl where
  use_as_match_trigger : Nat := 0
  shift_on_falling_edge : Nat := 0
  use_nonlocal_clock : Nat := 0
  invert_output_clock : Nat := 0
  match_interrupt_mode : Nat := 0
  parallel_mode : Nat := 0
  invert_shift_qualifier : Nat := 0
deriving DecidableEq

/-- `sgpio_shift_position_register_t`: two 8-bit fields. -/
structure SwapControl where
  shifts_remaining : Nat := 0
  shifts_per_buffer_swap : Nat := 0
deriving DecidableEq

/-- `sgpio_output_config_register_t`. -/
structure OutputConfig where
  output_bus_mode : Nat := 0
  pin_direction_source : Nat := 0
deriving DecidableEq

/-- The SGPIO register block (`platform_sgpio_registers_t`), restricted to the
registers the driver reads or writes.  Index-addressed arrays are modelled as
functions from the slice/pin index. -/
structure SgpioRegs where
  output_configuration : Nat → OutputConfig
  shift_configuration : Nat → ShiftConfig
  feature_control : Nat → FeatureControl
  data : Nat → Nat
  data_shadow : Nat → Nat
  sgpio_cycles_per_shift_clock : Nat → Nat
  cycle_count : Nat → Nat
  data_buffer_swap_control : Nat → SwapControl
  sgpio_pin_direction : Nat
  shift_clock_enable : Nat
  stop_on_next_buffer_swap : Nat

/-- The RGU peripheral reset returns every SGPIO register to its reset value;
the datasheet reset value of each register the driver touches is zero. -/
def sgpio_reset_register_state : SgpioRegs where
  output_configuration := fun _ => {}
  shift_configuration := fun _ => {}
  feature_control := fun _ => {}
  data := fun _ => 0
  data_shadow := fun _ => 0
  sgpio_cycles_per_shift_clock := fun _ => 0
  cycle_count := fun _ => 0
  data_buffer_swap_control := fun _ => {}
  sgpio_pin_direction := 0
  shift_clock_enable := 0
  stop_on_next_buffer_swap := 0

/-- `sgpio_function_t`.  The user buffer pointers are not part of the record;
the byte contents of the data buffer are passed separately where a claim needs
them.  Derived fields are written back by the driver exactly as in C. -/
structure SgpioFunction where
  enabled : Bool := true
  mode : SgpioMode := SgpioMode.stream_data_in
  pin_configurations : List PinConfig := []
  bus_width : Nat := 1
  shift_clock_source : Nat := 0
  shift_clock_edge : Nat := 0
  shift_clock_input : Option PinConfig := none
  shift_clock_frequency : Nat := 0
  shift_clock_qualifier : Nat := 0
  shift_clock_qualifier_is_active_low : Bool := false
  shift_clock_qualifier_input : Option PinConfig := none
  shift_clock_output : Option PinConfig := none
  buffer_order : Nat := 0
  direction_buffer_order : Nat := 0
  position_in_buffer : Nat := 0
  position_in_direction_buffer : Nat := 0
  shift_count_limit : Nat := 0
  data_in_buffer : Nat := 0
  overrides : Nat := 0
  io_slice : Nat := 0
  buffer_depth_order : Nat := 0
  direction_slice : Nat := 0
  direction_buffer_depth_order : Nat := 0
deriving DecidableEq

/-- `sgpio_t`: the driver context. -/
structure Sgpio where
  running : Bool := false
  functions : List SgpioFunction := []
  slices_in_use : Nat := 0
  pins_in_use : Nat := 0
  swap_irqs_required : Nat := 0
  reg : SgpioRegs := sgpio_reset_register_state

/-- `SGPIO_FUNCTION_OVERRIDE_NEVER_USE_ISR`. -/
def SGPIO_FUNCTION_OVERRIDE_NEVER_USE_ISR : Nat := 1

/-! ## SCU mapping table (sgpio.c lines 55-112) -/

/-- `sgpio_scu_function_t` entries `(sgpio, group, pin, function)` of the
`scu_mappings` table, in source order. -/
def scu_mappings : List (Nat × Nat × Nat × Nat) :=
  [(0, 0, 0, 3), (1, 0, 1, 3), (7, 1, 0, 6), (8, 1, 1, 3), (9, 1, 2, 3),
   (10, 1, 3, 2), (11, 1, 4, 2), (15, 1, 5, 6), (14, 1, 6, 6), (8, 1, 12, 6),
   (9, 1, 13, 6), (10, 1, 14, 6), (2, 1, 15, 2), (3, 1, 16, 2), (11, 1, 17, 6),
   (12, 1, 18, 6), (13, 1, 20, 6), (4, 2, 0, 1),
   (5, 2, 1, 0), (6, 2, 2, 0), (12, 2, 3, 0), (13, 2, 4, 0), (14, 2, 5, 0),
   (7, 2, 6, 0), (15, 2, 8, 0), (8, 4, 2, 7), (9, 4, 3, 7), (10, 4, 4, 7),
   (11, 4, 5, 7), (12, 4, 6, 7), (13, 4, 8, 7), (14, 4, 9, 7), (15, 4, 10, 7),
   (4, 6, 3, 2), (5, 6, 6, 2), (6, 6, 7, 2), (7, 6, 8, 2),
   (4, 7, 0, 7), (5, 7, 1, 7), (6, 7, 2, 7), (7, 7, 7, 7),
   (3, 9, 5, 6), (8, 9, 6, 6)]

/-- `sgpio_get_scu_function_for_pin_config`: first matching table entry, or the
invalid marker `0xFF`. -/
def sgpio_get_scu_function_for_pin_config (config : PinConfig) : Nat :=
  match scu_mappings.find? (fun m =>
      m.2.1 = config.scu_group ∧ m.2.2.1 = config.scu_pin ∧ m.1 = config.sgpio_pin) with
  | some m => m.2.2.2
  | none => 0xFF

/-- `sgpio_set_up_pin`: look up the SCU function and mark the pin used.  The
SCU write itself (`platform_scu_configure_pin_fast_io`) touches a peripheral
outside the SGPIO block and is not represented. -/
def sgpio_set_up_pin (sgpio : Sgpio) (pin_config : PinConfig) : Int × Sgpio :=
  let function := sgpio_get_scu_function_for_pin_config pin_config
  if function = 0xFF then (EINVAL, sgpio)
  else (0, { sgpio with pins_in_use := sgpio.pins_in_use ||| (1 <<< pin_config.sgpio_pin) })

/-! ## Small register-update helpers -/

/-- Update one slice's shift-configuration register. -/
def setShiftConfig (sgpio : Sgpio) (i : Nat) (f : ShiftConfig → ShiftConfig) : Sgpio :=
  { sgpio with reg := { sgpio.reg with
      shift_configuration := upd sgpio.reg.shift_configuration i (f (sgpio.reg.shift_configuration i)) } }

/-- Update one slice's feature-control register. -/
def setFeatureControl (sgpio : Sgpio) (i : Nat) (f : FeatureControl → FeatureControl) : Sgpio :=
  { sgpio with reg := { sgpio.reg with
      feature_control := upd sgpio.reg.feature_control i (f (sgpio.reg.feature_control i)) } }

/-- Update one pin's output-configuration register. -/
def setOutputConfig (sgpio : Sgpio) (i : Nat) (f : OutputConfig → OutputConfig) : Sgpio :=
  { sgpio with reg := { sgpio.reg with
      output_configuration := upd sgpio.reg.output_configuration i (f (sgpio.reg.output_configuration i)) } }

/-! ## Clock-source / qualifier constants (sgpio.h) -/

def SGPIO_CLOCK_SOURCE_TYPE_MASK : Nat := 0xF0
def SGPIO_CLOCK_SOURCE_SELECT_MASK : Nat := 0x0F
def SGPIO_CLOCK_SOURCE_TYPE_SLICE : Nat := 0x00
def SGPIO_CLOCK_SOURCE_TYPE_PIN : Nat := 0x10
def SGPIO_CLOCK_SOURCE_TYPE_LOCAL : Nat := 0x20
def SGPIO_CLOCK_SOURCE_COUNTER : Nat := 0x20
def SGPIO_QUALIFIER_TYPE_SHIFT : Nat := 4
def SGPIO_QUALIFIER_TYPE_MASK : Nat := 0xF0
def SGPIO_QUALIFIER_SELECT_MASK : Nat := 0xFF
def SGPIO_QUALIFIER_TYPE_PIN : Nat := 0x30

/-! ## Clocking and qualifier configuration (sgpio.c lines 299-404) -/

/-- `sgpio_set_up_clocking`.  The C routine reads the SGPIO branch-clock
frequency from the CCU; here that environment input is the explicit
`sgpio_clock_frequency` parameter.  Returns the C result code, the updated
context and the function record (whose `shift_clock_frequency` is written
back with the achieved rate on the LOCAL path). -/
def sgpio_set_up_clocking (sgpio : Sgpio) (function : SgpioFunction) (slice : Nat)
    (sgpio_clock_frequency : Nat) : Int × Sgpio × SgpioFunction :=
  let clock_source_type := function.shift_clock_source &&& SGPIO_CLOCK_SOURCE_TYPE_MASK
  let clock_source := function.shift_clock_source &&& SGPIO_CLOCK_SOURCE_SELECT_MASK
  let sgpio := setShiftConfig sgpio slice (fun sc => { sc with
      use_external_clock := if clock_source_type = SGPIO_CLOCK_SOURCE_TYPE_PIN then 1 else 0,
      clock_source_slice := clock_source % 4,
      clock_source_pin := clock_source % 4 })
  let sgpio := setFeatureControl sgpio slice (fun fc => { fc with
      use_nonlocal_clock := if clock_source_type ≠ SGPIO_CLOCK_SOURCE_TYPE_LOCAL then 1 else 0,
      shift_on_falling_edge := function.shift_clock_edge % 2 })
  if clock_source_type = SGPIO_CLOCK_SOURCE_TYPE_LOCAL then
    -- a requested frequency of zero means "as fast as possible": divider 1;
    -- otherwise the divider is the truncating C division of the branch clock
    -- by the requested frequency ("TODO: do we want to round, here?")
    let clock_divider := if function.shift_clock_frequency = 0 then 1
      else sgpio_clock_frequency / function.shift_clock_frequency
    if clock_divider = 0 then (EINVAL, sgpio, function)
    else
      let sgpio := { sgpio with reg := { sgpio.reg with
          sgpio_cycles_per_shift_clock :=
            upd sgpio.reg.sgpio_cycles_per_shift_clock slice (clock_divider - 1),
          cycle_count := upd sgpio.reg.cycle_count slice (clock_divider - 1) } }
      (0, sgpio, { function with shift_clock_frequency := sgpio_clock_frequency / clock_divider })
  else if clock_source_type = SGPIO_CLOCK_SOURCE_TYPE_PIN then
    match function.shift_clock_input with
    | none => (EINVAL, sgpio, function)
    | some pin_config =>
      -- the C code discards the result of this pin setup
      (0, (sgpio_set_up_pin sgpio pin_config).2, function)
  else (0, sgpio, function)

/-- `sgpio_set_up_shift_condition`. -/
def sgpio_set_up_shift_condition (sgpio : Sgpio) (function : SgpioFunction) (slice : Nat) :
    Int × Sgpio :=
  let qualifier_type := function.shift_clock_qualifier &&& SGPIO_QUALIFIER_TYPE_MASK
  let qualifier_source := function.shift_clock_qualifier &&& SGPIO_QUALIFIER_SELECT_MASK
  let sgpio := setShiftConfig sgpio slice (fun sc => { sc with
      shift_qualifier_mode := (qualifier_type >>> SGPIO_QUALIFIER_TYPE_SHIFT) % 4,
      shift_qualifier_pin := qualifier_source % 4,
      shift_qualifier_slice := qualifier_source % 4 })
  let sgpio := setFeatureControl sgpio slice (fun fc => { fc with
      invert_shift_qualifier := if function.shift_clock_qualifier_is_active_low then 1 else 0 })
  if qualifier_type = SGPIO_QUALIFIER_TYPE_PIN then
    match function.shift_clock_qualifier_input with
    | none => (EINVAL, sgpio)
    | some pin_config => (0, (sgpio_set_up_pin sgpio pin_config).2)
  else (0, sgpio)

/-! ## Swap control: shift limits and double buffering (sgpio.c lines 407-471) -/

/-- `sgpio_apply_shift_limits`.  `shifts_per_swap` is a `uint8_t` in the C
code, so the product `(32 * total) / width` is truncated modulo 256 before
the limit comparison. -/
def sgpio_apply_shift_limits (sgpio : Sgpio) (function : SgpioFunction) (slice : Nat)
    (total_concatenated_slices bus_width : Nat) : Int × Sgpio :=
  let shifts_per_swap := SGPIO_BITS_PER_SLICE * total_concatenated_slices / bus_width % 256
  let shift_can_be_limited := function.shift_count_limit ≤ shifts_per_swap
  if function.shift_count_limit = 0 then (0, sgpio)
  else if ¬shift_can_be_limited then (ENOMEM, sgpio)
  else
    let swap_control_value : SwapControl :=
      { shifts_per_buffer_swap := 0, shifts_remaining := (function.shift_count_limit - 1) % 256 }
    (0, { sgpio with reg := { sgpio.reg with
        data_buffer_swap_control :=
          upd sgpio.reg.data_buffer_swap_control slice swap_control_value,
        stop_on_next_buffer_swap := sgpio.reg.stop_on_next_buffer_swap ||| (1 <<< slice) } })

/-- `sgpio_set_up_double_buffering`.  Both fields receive `shifts_per_swap - 1`
through an 8-bit store. -/
def sgpio_set_up_double_buffering (sgpio : Sgpio) (slice : Nat)
    (total_concatenated_slices bus_width : Nat) : Sgpio :=
  let shifts_per_swap := SGPIO_BITS_PER_SLICE * total_concatenated_slices / bus_width % 256
  let swap_control_value : SwapControl :=
    { shifts_per_buffer_swap := (shifts_per_swap + 255) % 256,
      shifts_remaining := (shifts_per_swap + 255) % 256 }
  { sgpio with reg := { sgpio.reg with
      data_buffer_swap_control :=
        upd sgpio.reg.data_buffer_swap_control slice swap_control_value,
      stop_on_next_buffer_swap :=
        sgpio.reg.stop_on_next_buffer_swap &&& (0xFFFFFFFF ^^^ (1 <<< slice)) } }

/-- `sgpio_copy_slice_properties`. -/
def sgpio_copy_slice_properties (sgpio : Sgpio) (to_slice from_slice : Nat) : Sgpio :=
  let reg := sgpio.reg
  let reg := { reg with
    shift_configuration := upd reg.shift_configuration to_slice (reg.shift_configuration from_slice),
    feature_control := upd reg.feature_control to_slice (reg.feature_control from_slice),
    sgpio_cycles_per_shift_clock :=
      upd reg.sgpio_cycles_per_shift_clock to_slice (reg.sgpio_cycles_per_shift_clock from_slice),
    cycle_count := upd reg.cycle_count to_slice (reg.cycle_count from_slice),
    data_buffer_swap_control :=
      upd reg.data_buffer_swap_control to_slice (reg.data_buffer_swap_control from_slice) }
  let reg := if reg.stop_on_next_buffer_swap &&& (1 <<< from_slice) ≠ 0 then
      { reg with stop_on_next_buffer_swap := reg.stop_on_next_buffer_swap ||| (1 <<< to_slice) }
    else
      { reg with stop_on_next_buffer_swap :=
          reg.stop_on_next_buffer_swap &&& (0xFFFFFFFF ^^^ (1 <<< to_slice)) }
  { sgpio with reg := reg }

/-! ## Bus topology (sgpio.c lines 477-546) -/

/-- `sgpio_set_up_bus_topology`: parallel-mode selection with 3-to-4 and
5/6/7-to-8 bus-width promotion, single-slice double buffering, and the
bidirectional direction-slice setup. -/
def sgpio_set_up_bus_topology (sgpio : Sgpio) (function : SgpioFunction) :
    Int × Sgpio × SgpioFunction :=
  let io_slice := function.io_slice
  let set_parallel_mode := fun (sgpio : Sgpio) (m : Nat) =>
    setFeatureControl sgpio io_slice (fun fc => { fc with parallel_mode := m })
  -- shared tail of the C routine, run after the bus-width switch
  let after := fun (sgpio : Sgpio) (function : SgpioFunction) =>
    let sgpio := setShiftConfig sgpio io_slice (fun sc => { sc with enable_concatenation := 0 })
    let function := { function with buffer_depth_order := 0 }
    let sgpio := sgpio_set_up_double_buffering sgpio function.io_slice 1 function.bus_width
    if function.mode = SgpioMode.stream_bidirectional then
      let sgpio := sgpio_copy_slice_properties sgpio function.direction_slice function.io_slice
      let sgpio := if function.bus_width ≠ 1 then
          setFeatureControl sgpio function.direction_slice (fun fc => { fc with parallel_mode := 1 })
        else sgpio
      let sgpio := setShiftConfig sgpio function.direction_slice (fun sc =>
          { sc with enable_concatenation := 1, concatenation_order := 0 })
      (0, sgpio, { function with direction_buffer_depth_order := 0 })
    else (0, sgpio, function)
  match function.bus_width with
  | 1 => after (set_parallel_mode sgpio 0) function
  | 2 => after (set_parallel_mode sgpio 1) function
  | 3 => after (set_parallel_mode sgpio 2) { function with bus_width := 4 }
  | 4 => after (set_parallel_mode sgpio 2) function
  | 5 => after (set_parallel_mode sgpio 3) { function with bus_width := 8 }
  | 6 => after (set_parallel_mode sgpio 3) { function with bus_width := 8 }
  | 7 => after (set_parallel_mode sgpio 3) { function with bus_width := 8 }
  | 8 => after (set_parallel_mode sgpio 3) function
  | _ => (EINVAL, sgpio, function)

/-! ## Per-function initial placement (sgpio.c lines 558-654) -/

/-- The pin-multiplexing loop at the head of `sgpio_set_up_function`. -/
def sgpio_set_up_pins_loop (sgpio : Sgpio) : List PinConfig → Int × Sgpio
  | [] => (0, sgpio)
  | pin_config :: rest =>
    let (rc, sgpio) := sgpio_set_up_pin sgpio pin_config
    if rc ≠ 0 then (rc, sgpio) else sgpio_set_up_pins_loop sgpio rest

/-- `sgpio_set_up_function`: initial placement of one function.  Mirrors the C
control flow, including the bidirectional early return of the stale (zero)
`rc` when the direction-slice lookup fails. -/
def sgpio_set_up_function (sgpio : Sgpio) (function : SgpioFunction)
    (sgpio_clock_frequency : Nat) : Int × Sgpio × SgpioFunction :=
  let first_pin_number := (function.pin_configurations.getD 0 {}).sgpio_pin
  if ¬function.enabled then (0, sgpio, function)
  else
    let (rc, sgpio) := sgpio_set_up_pins_loop sgpio
        (function.pin_configurations.take function.bus_width)
    if rc ≠ 0 then (rc, sgpio, function)
    else
      -- mode-specific I/O (and direction) slice selection; the C `default` arm
      -- returning -ENOSYS is unreachable over the five-constructor mode type
      let placement : (Int × Sgpio × SgpioFunction) ⊕ (Sgpio × SgpioFunction) :=
        match function.mode with
        | SgpioMode.stream_bidirectional =>
          let dir_slice := toUint8 (sgpio_slice_for_direction first_pin_number function.bus_width)
          let function := { function with direction_slice := dir_slice }
          if function.direction_slice = 0xFF then Sum.inl (0, sgpio, function)
          else if sgpio.slices_in_use &&& (1 <<< function.direction_slice) ≠ 0 then
            Sum.inl (EBUSY, sgpio, function)
          else
            let sgpio := { sgpio with
                slices_in_use := sgpio.slices_in_use ||| (1 <<< function.direction_slice) }
            Sum.inr (sgpio, { function with io_slice := toUint8 (sgpio_slice_for_io first_pin_number) })
        | SgpioMode.stream_data_in =>
          Sum.inr (sgpio, { function with io_slice := toUint8 (sgpio_slice_for_io first_pin_number) })
        | SgpioMode.stream_data_out =>
          Sum.inr (sgpio, { function with io_slice := toUint8 (sgpio_slice_for_io first_pin_number) })
        | SgpioMode.fixed_data_out =>
          Sum.inr (sgpio, { function with io_slice := toUint8 (sgpio_slice_for_io first_pin_number) })
        | SgpioMode.clock_generation =>
          Sum.inr (sgpio, { function with io_slice := sgpio_slice_for_clockgen first_pin_number })
      match placement with
      | Sum.inl early => early
      | Sum.inr (sgpio, function) =>
        let (rc, sgpio, function) :=
          sgpio_set_up_clocking sgpio function function.io_slice sgpio_clock_frequency
        if rc ≠ 0 then (rc, sgpio, function)
        else
          let (rc, sgpio) := sgpio_set_up_shift_condition sgpio function function.io_slice
          if rc ≠ 0 then (rc, sgpio, function)
          else
            let (rc, sgpio, function) := sgpio_set_up_bus_topology sgpio function
            if rc ≠ 0 then (rc, sgpio, function)
            else
              (0, { sgpio with
                  slices_in_use := sgpio.slices_in_use ||| (1 <<< function.io_slice) }, function)

/-! ## Buffer optimization (sgpio.c lines 658-1018) -/

/-- `sgpio_slices_for_buffer_free`: every slice of the proposed extension must
be unused. -/
def sgpio_slices_for_buffer_free (sgpio : Sgpio) (io_slice first_new_slice_depth
    buffer_depth_slices : Nat) : Bool :=
  (((List.range buffer_depth_slices).drop first_new_slice_depth).all (fun i =>
    let target_slice := toUint8 (sgpio_slice_in_concatenation io_slice i)
    decide (sgpio.slices_in_use &&& (1 <<< target_slice) = 0)))

/-- `sgpio_limit_buffer_depth_to_user_limits`, including the fixed-data-out
halving (data plus shadow both hold pattern data). -/
def sgpio_limit_buffer_depth_to_user_limits (function : SgpioFunction) (maximum_depth : Nat) :
    Nat :=
  let buffer_size_bytes := 2 ^ function.buffer_order
  let buffer_size_slices := buffer_size_bytes / 4
  if buffer_size_bytes < 4 then 1
  else
    let buffer_size_slices :=
      if function.mode = SgpioMode.fixed_data_out ∧ buffer_size_slices > 1 ∧
          function.shift_count_limit = 0 then
        buffer_size_slices / 2
      else buffer_size_slices
    if buffer_size_slices > maximum_depth then maximum_depth else buffer_size_slices

/-- `sgpio_maximum_useful_buffer_depth_for_function`. -/
def sgpio_maximum_useful_buffer_depth_for_function (function : SgpioFunction) : Nat :=
  match function.mode with
  | SgpioMode.clock_generation => 1
  | SgpioMode.stream_data_in =>
      sgpio_limit_buffer_depth_to_user_limits function SGPIO_MAXIMUM_SLICE_CHAIN_DEPTH
  | SgpioMode.stream_data_out =>
      sgpio_limit_buffer_depth_to_user_limits function SGPIO_MAXIMUM_SLICE_CHAIN_DEPTH
  | SgpioMode.fixed_data_out =>
      sgpio_limit_buffer_depth_to_user_limits function SGPIO_MAXIMUM_SLICE_CHAIN_DEPTH
  | SgpioMode.stream_bidirectional =>
      let maximum_bidirectional_depth :=
        if function.io_slice ≥ SGPIO_NUM_SLICES / 2 then SGPIO_MAXIMUM_SLICE_CHAIN_DEPTH / 2
        else SGPIO_MAXIMUM_SLICE_CHAIN_DEPTH
      sgpio_limit_buffer_depth_to_user_limits function maximum_bidirectional_depth

/-- Shared body of the two buffer-doubling loops (sgpio.c lines 824-841 and
943-965): copy the base slice's properties into each new chained slice, set
its concatenation bits and mark it used.  The direction-chain loop is the
`accepts_input = false` instance (its slices always self-loop). -/
def sgpio_configure_concatenated_slices (sgpio : Sgpio) (base_slice
    desired_concatenation_order : Nat) (accepts_input : Bool) (input_slice : Nat)
    (depths : List Nat) : Sgpio :=
  depths.foldl (fun sgpio i =>
    let target_slice := toUint8 (sgpio_slice_in_concatenation base_slice i)
    let sgpio := if target_slice ≠ base_slice then
        sgpio_copy_slice_properties sgpio target_slice base_slice
      else sgpio
    let sgpio := setShiftConfig sgpio target_slice (fun sc => { sc with
        enable_concatenation := if ¬accepts_input ∨ target_slice ≠ input_slice then 1 else 0,
        concatenation_order := desired_concatenation_order % 4 })
    { sgpio with slices_in_use := sgpio.slices_in_use ||| (1 <<< target_slice) }) sgpio

/-- `sgpio_attempt_to_double_direction_buffer_size`.  Note: the source writes
the new order into `buffer_depth_order`, not `direction_buffer_depth_order`;
this is reproduced faithfully. -/
def sgpio_attempt_to_double_direction_buffer_size (sgpio : Sgpio) (function : SgpioFunction) :
    Bool × Sgpio × SgpioFunction :=
  let concat_order := function.direction_buffer_depth_order
  let desired_concatenation_order := concat_order + 1
  let buffer_depth_slices := 2 ^ concat_order
  let desired_buffer_depth := 2 ^ desired_concatenation_order
  if ¬sgpio_slices_for_buffer_free sgpio function.direction_slice buffer_depth_slices
      desired_buffer_depth then
    (false, sgpio, function)
  else
    let function := { function with buffer_depth_order := desired_concatenation_order }
    let sgpio := sgpio_set_up_double_buffering sgpio function.direction_slice
        desired_buffer_depth function.bus_width
    let sgpio := sgpio_configure_concatenated_slices sgpio function.direction_slice
        desired_concatenation_order false 0 (List.range desired_buffer_depth)
    (true, sgpio, function)

/-- `sgpio_ensure_direction_specification_is_possible`. -/
def sgpio_ensure_direction_specification_is_possible (sgpio : Sgpio)
    (function : SgpioFunction) (desired_buffer_depth : Nat) : Bool × Sgpio × SgpioFunction :=
  let direction_buffer_depth := 2 ^ function.direction_buffer_depth_order
  let direction_shift_width := if function.bus_width = 1 then 1 else 2
  let shifts_in_new_buffer := desired_buffer_depth * 32 / function.bus_width
  let shifts_in_current_direction_buffer := direction_buffer_depth * 32 / direction_shift_width
  if function.mode ≠ SgpioMode.stream_bidirectional then (true, sgpio, function)
  else if shifts_in_current_direction_buffer ≥ shifts_in_new_buffer then (true, sgpio, function)
  else sgpio_attempt_to_double_direction_buffer_size sgpio function

/-- `sgpio_attempt_to_double_buffer_size`. -/
def sgpio_attempt_to_double_buffer_size (sgpio : Sgpio) (function : SgpioFunction) :
    Bool × Sgpio × SgpioFunction :=
  let concat_order := function.buffer_depth_order
  let desired_concatenation_order := concat_order + 1
  let buffer_depth_slices := 2 ^ concat_order
  let desired_buffer_depth := 2 ^ desired_concatenation_order
  let mode_accepts_input := function.mode = SgpioMode.stream_data_in ∨
      function.mode = SgpioMode.stream_bidirectional
  if desired_buffer_depth > sgpio_maximum_useful_buffer_depth_for_function function then
    (false, sgpio, function)
  else if ¬sgpio_slices_for_buffer_free sgpio function.io_slice buffer_depth_slices
      desired_buffer_depth then
    (false, sgpio, function)
  else
    let (ok, sgpio, function) :=
      sgpio_ensure_direction_specification_is_possible sgpio function desired_buffer_depth
    if ¬ok then (false, sgpio, function)
    else
      let function := { function with buffer_depth_order := desired_concatenation_order }
      let sgpio := sgpio_set_up_double_buffering sgpio function.io_slice desired_buffer_depth
          function.bus_width
      let input_slice := if function.mode = SgpioMode.stream_bidirectional then 0xFF
        else function.io_slice
      let sgpio := sgpio_configure_concatenated_slices sgpio function.io_slice
          desired_concatenation_order (decide mode_accepts_input) input_slice
          (List.range desired_buffer_depth)
      (true, sgpio, function)

/-- The per-function body of `sgpio_attempt_buffer_optimization`, threading the
`already_optimal` accumulator exactly as the C loop does. -/
def sgpio_attempt_buffer_optimization_loop :
    Sgpio → Bool → List SgpioFunction → Bool × Sgpio × List SgpioFunction
  | sgpio, already_optimal, [] => (already_optimal, sgpio, [])
  | sgpio, already_optimal, function :: rest =>
    let (optimization_achieved, sgpio, function) :=
      match function.mode with
      | SgpioMode.clock_generation => (false, sgpio, function)
      | _ => sgpio_attempt_to_double_buffer_size sgpio function
    let (opt, sgpio, rest) := sgpio_attempt_buffer_optimization_loop sgpio
        (already_optimal && !optimization_achieved) rest
    (opt, sgpio, function :: rest)

/-- `sgpio_attempt_buffer_optimization`: one pass over every function. -/
def sgpio_attempt_buffer_optimization (sgpio : Sgpio) : Bool × Sgpio :=
  let (already_optimal, sgpio2, functions) :=
    sgpio_attempt_buffer_optimization_loop sgpio true sgpio.functions
  (already_optimal, { sgpio2 with functions := functions })

/-- The `while (!buffer_optimization_complete)` loop of `sgpio_set_up_functions`.
The C loop terminates because every pass that reports progress has strictly
increased some function's `buffer_depth_order`, which is bounded by 3; fuel of
64 therefore always reaches the fixed point for any 16-function context. -/
def sgpio_optimize_buffers : Nat → Sgpio → Sgpio
  | 0, sgpio => sgpio
  | fuel + 1, sgpio =>
    let (buffer_optimization_complete, sgpio) := sgpio_attempt_buffer_optimization sgpio
    if buffer_optimization_complete then sgpio else sgpio_optimize_buffers fuel sgpio

/-! ## Output pin policy (sgpio.c lines 1024-1246) -/

/-- `sgpio_output_mode_for_output_buffer`: mode-A output bus modes per width,
GPIO mode after the invalid-width warning. -/
def sgpio_output_mode_for_output_buffer (bus_width : Nat) : Nat :=
  match bus_width with
  | 1 => 0x0
  | 2 => 0x1
  | 3 => 0x5
  | 4 => 0x5
  | 5 => 0x9
  | 6 => 0x9
  | 7 => 0x9
  | 8 => 0x9
  | _ => 0x4

/-- `sgpio_set_pin_to_clkout_mode`. -/
def sgpio_set_pin_to_clkout_mode (sgpio : Sgpio) (pin_config : PinConfig) : Int × Sgpio :=
  let clk_pin := pin_config.sgpio_pin
  let (rc, sgpio) := sgpio_set_up_pin sgpio pin_config
  let sgpio := setOutputConfig sgpio clk_pin (fun oc => { oc with pin_direction_source := 0 })
  let sgpio := { sgpio with reg := { sgpio.reg with
      sgpio_pin_direction := sgpio.reg.sgpio_pin_direction ||| (1 <<< clk_pin) } }
  let sgpio := { sgpio with pins_in_use := sgpio.pins_in_use ||| (1 <<< clk_pin) }
  let sgpio := setOutputConfig sgpio clk_pin (fun oc => { oc with output_bus_mode := 0x8 })
  (rc, sgpio)

/-- `sgpio_set_up_shift_clock_output`.  Only called when the function carries a
shift-clock-output pin; a `none` here mirrors the impossible NULL dereference
and trivially succeeds. -/
def sgpio_set_up_shift_clock_output (sgpio : Sgpio) (function : SgpioFunction) : Int × Sgpio :=
  match function.shift_clock_output with
  | none => (0, sgpio)
  | some pin_config =>
    let clk_pin := pin_config.sgpio_pin
    let clkgen_slice := sgpio_slice_for_clockgen clk_pin
    let target_divisor := sgpio.reg.sgpio_cycles_per_shift_clock function.io_slice
    let slice_in_use := decide (sgpio.slices_in_use &&& (1 <<< clkgen_slice) ≠ 0)
    let slice_frequency_matches :=
      decide (sgpio.reg.sgpio_cycles_per_shift_clock clkgen_slice = target_divisor)
    if slice_in_use && slice_frequency_matches then
      (0, (sgpio_set_pin_to_clkout_mode sgpio pin_config).2)
    else if !slice_in_use then
      let sgpio := sgpio_copy_slice_properties sgpio clkgen_slice function.io_slice
      let sgpio := { sgpio with slices_in_use := sgpio.slices_in_use ||| (1 <<< clkgen_slice) }
      (0, (sgpio_set_pin_to_clkout_mode sgpio pin_config).2)
    else (EBUSY, sgpio)

/-- One iteration of the pin loop in `sgpio_set_up_output_pins_for_function`. -/
def sgpio_set_up_output_pin (sgpio : Sgpio) (function : SgpioFunction) (pin_number : Nat) :
    Sgpio :=
  match function.mode with
  | SgpioMode.stream_data_in =>
    let sgpio := setOutputConfig sgpio pin_number (fun oc => { oc with pin_direction_source := 0 })
    { sgpio with reg := { sgpio.reg with sgpio_pin_direction :=
        sgpio.reg.sgpio_pin_direction &&& (0xFFFFFFFF ^^^ (1 <<< pin_number)) } }
  | SgpioMode.stream_data_out =>
    let sgpio := setOutputConfig sgpio pin_number (fun oc => { oc with
        output_bus_mode := sgpio_output_mode_for_output_buffer function.bus_width,
        pin_direction_source := 0 })
    { sgpio with reg := { sgpio.reg with sgpio_pin_direction :=
        sgpio.reg.sgpio_pin_direction ||| (1 <<< pin_number) } }
  | SgpioMode.fixed_data_out =>
    let sgpio := setOutputConfig sgpio pin_number (fun oc => { oc with
        output_bus_mode := sgpio_output_mode_for_output_buffer function.bus_width,
        pin_direction_source := 0 })
    { sgpio with reg := { sgpio.reg with sgpio_pin_direction :=
        sgpio.reg.sgpio_pin_direction ||| (1 <<< pin_number) } }
  | SgpioMode.clock_generation =>
    let sgpio := setOutputConfig sgpio pin_number (fun oc => { oc with
        output_bus_mode := 0x8, pin_direction_source := 0 })
    { sgpio with reg := { sgpio.reg with sgpio_pin_direction :=
        sgpio.reg.sgpio_pin_direction ||| (1 <<< pin_number) } }
  | SgpioMode.stream_bidirectional =>
    let sgpio := setOutputConfig sgpio pin_number (fun oc => { oc with
        output_bus_mode := sgpio_output_mode_for_output_buffer function.bus_width })
    -- pre-tristate the output through the direction slice's data register
    let sgpio := { sgpio with reg := { sgpio.reg with
        data := upd sgpio.reg.data function.direction_slice 0 } }
    let direction_source :=
      match function.bus_width with
      | 8 => some 0x7
      | 4 => some 0x6
      | 2 => some 0x5
      | 1 => some 0x4
      | _ => none
    match direction_source with
    | some src => setOutputConfig sgpio pin_number (fun oc =>
        { oc with pin_direction_source := src })
    | none => sgpio

/-- `sgpio_set_up_output_pins_for_function`. -/
def sgpio_set_up_output_pins_for_function (sgpio : Sgpio) (function : SgpioFunction) :
    Int × Sgpio :=
  let sgpio := (function.pin_configurations.take function.bus_width).foldl
      (fun sgpio pin_config => sgpio_set_up_output_pin sgpio function pin_config.sgpio_pin) sgpio
  match function.shift_clock_output with
  | some _ => sgpio_set_up_shift_clock_output sgpio function
  | none => (0, sgpio)

/-- `sgpio_set_up_output_pins`: all functions, stopping at the first error. -/
def sgpio_set_up_output_pins_loop : Sgpio → List SgpioFunction → Int × Sgpio
  | sgpio, [] => (0, sgpio)
  | sgpio, function :: rest =>
    let (rc, sgpio) := sgpio_set_up_output_pins_for_function sgpio function
    if rc ≠ 0 then (rc, sgpio) else sgpio_set_up_output_pins_loop sgpio rest

def sgpio_set_up_output_pins (sgpio : Sgpio) : Int × Sgpio :=
  sgpio_set_up_output_pins_loop sgpio sgpio.functions

/-! ## Shift-limit enforcement (sgpio.c lines 1250-1293) -/

/-- The inner chain loop of `sgpio_enforce_all_shift_limits`. -/
def sgpio_apply_limits_over_chain (sgpio : Sgpio) (function : SgpioFunction)
    (base_slice buffer_depth bus_width : Nat) : List Nat → Int × Sgpio
  | [] => (0, sgpio)
  | slice_depth :: rest =>
    let slice := toUint8 (sgpio_slice_in_concatenation base_slice slice_depth)
    let (rc, sgpio) := sgpio_apply_shift_limits sgpio function slice buffer_depth bus_width
    if rc ≠ 0 then (rc, sgpio)
    else sgpio_apply_limits_over_chain sgpio function base_slice buffer_depth bus_width rest

/-- The per-function body of `sgpio_enforce_all_shift_limits`. -/
def sgpio_enforce_all_shift_limits_loop : Sgpio → List SgpioFunction → Int × Sgpio
  | sgpio, [] => (0, sgpio)
  | sgpio, function :: rest =>
    let buffer_depth := 2 ^ function.buffer_depth_order
    let direction_buffer_depth := 2 ^ function.direction_buffer_depth_order
    let direction_bus_width := if function.bus_width = 1 then 1 else 2
    let (rc, sgpio) := sgpio_apply_limits_over_chain sgpio function function.io_slice
        buffer_depth function.bus_width (List.range buffer_depth)
    if rc ≠ 0 then (rc, sgpio)
    else
      let (rc, sgpio) :=
        if function.mode = SgpioMode.stream_bidirectional then
          sgpio_apply_limits_over_chain sgpio function function.direction_slice
              direction_buffer_depth direction_bus_width (List.range direction_buffer_depth)
        else (0, sgpio)
      if rc ≠ 0 then (rc, sgpio) else sgpio_enforce_all_shift_limits_loop sgpio rest

def sgpio_enforce_all_shift_limits (sgpio : Sgpio) : Int × Sgpio :=
  sgpio_enforce_all_shift_limits_loop sgpio sgpio.functions

/-! ## ISR necessity and generation (sgpio_data.c lines 370-612) -/

/-- `sgpio_data_buffer_fits_in_sgpio_slice_chain`.  `shifts_per_slice` and
`shifts_total` are `uint8_t` in C, so both products truncate modulo 256
(notably `32 * 8 = 256` becomes 0 for a full serial chain, and the
`with_exchange` doubling can wrap as well). -/
def sgpio_data_buffer_fits_in_sgpio_slice_chain (function : SgpioFunction)
    (with_exchange : Bool) : Bool :=
  let slice_buffer_order_bytes := (function.buffer_depth_order + 2) % 256
  let slice_buffer_order_with_exchange := (slice_buffer_order_bytes + 1) % 256
  let slices_in_chain := 2 ^ function.buffer_depth_order
  let shifts_per_slice := 32 / function.bus_width % 256
  let shifts_total := shifts_per_slice * slices_in_chain % 256
  let shifts_total := if with_exchange then shifts_total * 2 % 256 else shifts_total
  if function.shift_count_limit ≠ 0 ∧ function.shift_count_limit < shifts_total then true
  else if function.mode ≠ SgpioMode.fixed_data_out then true
  else if with_exchange then decide (function.buffer_order ≤ slice_buffer_order_with_exchange)
  else decide (function.buffer_order ≤ slice_buffer_order_bytes)

/-- `sgpio_isr_necessary_for_function`. -/
def sgpio_isr_necessary_for_function (function : SgpioFunction) : Bool :=
  if function.overrides &&& SGPIO_FUNCTION_OVERRIDE_NEVER_USE_ISR ≠ 0 then false
  else
    match function.mode with
    | SgpioMode.clock_generation => false
    | SgpioMode.stream_bidirectional =>
        !sgpio_data_buffer_fits_in_sgpio_slice_chain function true
    | SgpioMode.stream_data_out =>
        !sgpio_data_buffer_fits_in_sgpio_slice_chain function true
    | SgpioMode.fixed_data_out =>
        !sgpio_data_buffer_fits_in_sgpio_slice_chain function true
    | SgpioMode.stream_data_in =>
      if function.shift_count_limit ≠ 0 then
        let shift_limit_bytes :=
          function.shift_count_limit * function.bus_width / SGPIO_BITS_PER_SLICE
        let shift_chain_bytes := 2 ^ function.buffer_depth_order
        decide (shift_limit_bytes > shift_chain_bytes)
      else true

/-- `sgpio_generate_isr_for_function`, reduced to its success result: `some ()`
when an ISR body is emitted, `none` when no ISR is necessary or the mode has
no copy-instruction form (the `-ENOSYS` default arm of
`generate_isr_copy_instructions`).  The Thumb instruction bytes themselves are
outside every claim and are not modelled. -/
def sgpio_generate_isr_for_function (function : SgpioFunction) : Option Unit :=
  if ¬sgpio_isr_necessary_for_function function then none
  else
    match function.mode with
    | SgpioMode.clock_generation => none
    | _ => some ()

/-- The function loop of `sgpio_generate_data_shuttle_isr`.  When a second
ISR-requiring function is met, the C code prints the multiple-ISR error and
then falls through WITHOUT returning, overwriting `swap_irqs_required` with
the newer function's I/O-slice bit. -/
def sgpio_generate_data_shuttle_isr_loop : Sgpio → List SgpioFunction → Int × Sgpio
  | sgpio, [] => (0, sgpio)
  | sgpio, function :: rest =>
    if sgpio_isr_necessary_for_function function then
      let sgpio := { sgpio with swap_irqs_required := 1 <<< function.io_slice }
      match sgpio_generate_isr_for_function function with
      | none => (EINVAL, sgpio)
      | some _ => sgpio_generate_data_shuttle_isr_loop sgpio rest
    else sgpio_generate_data_shuttle_isr_loop sgpio rest

/-- `sgpio_generate_data_shuttle_isr`.  The master-ISR selection and NVIC
handler installation that follow the loop have no effect on any modelled
state and always precede the `return 0`. -/
def sgpio_generate_data_shuttle_isr (sgpio : Sgpio) : Int × Sgpio :=
  let sgpio := { sgpio with swap_irqs_required := 0 }
  sgpio_generate_data_shuttle_isr_loop sgpio sgpio.functions

/-! ## The top-level planner (sgpio.c lines 1304-1383) -/

/-- The initial per-function loop of `sgpio_set_up_functions`, writing each
updated function record back into the array. -/
def sgpio_set_up_each_function : Sgpio → List SgpioFunction → Nat →
    Int × Sgpio × List SgpioFunction
  | sgpio, [], _ => (0, sgpio, [])
  | sgpio, function :: rest, sgpio_clock_frequency =>
    let (rc, sgpio, function) := sgpio_set_up_function sgpio function sgpio_clock_frequency
    if rc ≠ 0 then (rc, sgpio, function :: rest)
    else
      let (rc, sgpio, rest) := sgpio_set_up_each_function sgpio rest sgpio_clock_frequency
      (rc, sgpio, function :: rest)

/-- `sgpio_set_up_functions`: peripheral reset, pin defaulting, initial
placement, iterative buffer optimization, output-pin policy, shift-limit
enforcement and ISR generation.  `sgpio_clock_frequency` is the SGPIO branch
clock rate the C code reads from the CCU. -/
def sgpio_set_up_functions (sgpio : Sgpio) (sgpio_clock_frequency : Nat) : Int × Sgpio :=
  -- RGU reset of the peripheral, then an explicit shift-clock disable
  let sgpio := { sgpio with reg := sgpio_reset_register_state }
  let sgpio := { sgpio with reg := { sgpio.reg with shift_clock_enable := 0 } }
  let sgpio := { sgpio with slices_in_use := 0, pins_in_use := 0 }
  -- default every pin: the source writes `pin_direction_source` twice (GPIO
  -- output mode, then the pin-direction register), leaving the field at 0
  let sgpio := (List.range SGPIO_NUM_PINS).foldl (fun sgpio i =>
      let sgpio := setOutputConfig sgpio i (fun oc => { oc with pin_direction_source := 4 })
      setOutputConfig sgpio i (fun oc => { oc with pin_direction_source := 0 })) sgpio
  let sgpio := { sgpio with reg := { sgpio.reg with sgpio_pin_direction := 0 } }
  let (rc, sgpio, functions) :=
    sgpio_set_up_each_function sgpio sgpio.functions sgpio_clock_frequency
  let sgpio := { sgpio with functions := functions }
  if rc ≠ 0 then (rc, sgpio)
  else
    let sgpio := sgpio_optimize_buffers 64 sgpio
    let (rc, sgpio) := sgpio_set_up_output_pins sgpio
    if rc ≠ 0 then (rc, sgpio)
    else
      let (rc, sgpio) := sgpio_enforce_all_shift_limits sgpio
      if rc ≠ 0 then (rc, sgpio)
      else sgpio_generate_data_shuttle_isr sgpio

/-! ## Run-state query (sgpio.c lines 1453-1477) -/

/-- The slice scan of `sgpio_running` over the (ascending) list of slice
indices still to inspect.  An unused slice is skipped; the first used slice
whose shift clock is on and whose stop-on-next-buffer-swap bit is clear makes
the function return the context's `running` flag; otherwise a used slice with
a non-zero `cycle_count` returns true; falling off the end returns false. -/
def sgpio_running_loop (sgpio : Sgpio) : List Nat → Bool
  | [] => false
  | i :: rest =>
    let slice_in_use := sgpio.slices_in_use &&& (1 <<< i)
    let shift_clock_on := sgpio.reg.shift_clock_enable &&& (1 <<< i)
    let terminates_eventually := sgpio.reg.stop_on_next_buffer_swap &&& (1 <<< i)
    if slice_in_use = 0 then sgpio_running_loop sgpio rest
    else if terminates_eventually = 0 ∧ shift_clock_on ≠ 0 then sgpio.running
    else if sgpio.reg.cycle_count i ≠ 0 then true
    else sgpio_running_loop sgpio rest

/-- `sgpio_running`: the C `for (i = 0; i < SGPIO_NUM_SLICES; ++i)` scan. -/
def sgpio_running (sgpio : Sgpio) : Bool :=
  sgpio_running_loop sgpio (List.range SGPIO_NUM_SLICES)

/-! ## Residual data capture on halt (sgpio_data.c lines 205-265, 758-815) -/

/-- `sgpio_get_function_buffer_slice_index`: which slice backs position
`position_in_buffer` of the concatenated chain, with the single-slot rotation
for output modes.  The C default arm (clock generation) returns -1. -/
def sgpio_get_function_buffer_slice_index (function : SgpioFunction)
    (position_in_buffer : Nat) : Int :=
  let buffer_depth_slices := 2 ^ function.buffer_depth_order
  match function.mode with
  | SgpioMode.stream_data_out =>
    let position_to_look_up := if function.buffer_depth_order ≠ 0 then
        (position_in_buffer + 1) % buffer_depth_slices else position_in_buffer
    sgpio_slice_for_io (toUint8 (sgpio_io_pin_for_slice function.io_slice) + position_to_look_up)
  | SgpioMode.fixed_data_out =>
    let position_to_look_up := if function.buffer_depth_order ≠ 0 then
        (position_in_buffer + 1) % buffer_depth_slices else position_in_buffer
    sgpio_slice_for_io (toUint8 (sgpio_io_pin_for_slice function.io_slice) + position_to_look_up)
  | SgpioMode.stream_bidirectional =>
    let position_to_look_up := if function.buffer_depth_order ≠ 0 then
        (position_in_buffer + 1) % buffer_depth_slices else position_in_buffer
    sgpio_slice_for_io (toUint8 (sgpio_io_pin_for_slice function.io_slice) + position_to_look_up)
  | SgpioMode.stream_data_in =>
    sgpio_slice_for_io (toUint8 (sgpio_io_pin_for_slice function.io_slice) + position_in_buffer)
  | SgpioMode.clock_generation => -1

/-- `sgpio_capture_remaining_data_for_function`.  The caller's ring buffer is
the byte map `data_buffer`; the function record carries `position_in_buffer`.
When the I/O slice's swap control shows shift-limit termination
(`shifts_per_buffer_swap == 0` and `cycle_count == 0`) the residual bytes are
pulled from the shadow registers; on a manual halt the source selects the
active data registers and then returns without copying (a TODO in the code).
`data_buffer_size` is a `uint8_t` in C, hence the mod-256 truncation. -/
def sgpio_capture_remaining_data_for_function (sgpio : Sgpio) (function : SgpioFunction)
    (data_buffer : Nat → Nat) : SgpioFunction × (Nat → Nat) :=
  let data_buffer_size := 2 ^ function.buffer_order % 256
  let swap_position := sgpio.reg.data_buffer_swap_control function.io_slice
  if swap_position.shifts_per_buffer_swap = 0 ∧
      sgpio.reg.cycle_count function.io_slice = 0 then
    let shifts_to_process := function.shift_count_limit
    let slice_buffers := sgpio.reg.data_shadow
    let bytes_to_process := shifts_to_process * function.bus_width / 8
    (List.range bytes_to_process).foldl (fun (st : SgpioFunction × (Nat → Nat)) i =>
      let (function, data_buffer) := st
      let slice_in_chain := i / 4
      let slice_index := toUint8 (sgpio_get_function_buffer_slice_index function slice_in_chain)
      let slice_data := slice_buffers slice_index
      let data_shift_bytes := 3 - i % 4
      let data_byte := (slice_data >>> (data_shift_bytes * 8)) % 256
      let data_buffer := upd data_buffer function.position_in_buffer data_byte
      ({ function with
          position_in_buffer := (function.position_in_buffer + 1) % data_buffer_size },
        data_buffer)) (function, data_buffer)
  else
    (function, data_buffer)

end Libgreat

/-! ## The generic ring buffer (drivers/memory/ringbuffer) -/

namespace Ringbuffer

open Libgreat (upd ENOMEM)

/-- Wrap bound of the 64-bit monotonic read/write indices. -/
def U64 : Nat := 2 ^ 64

/-- Wrap bound of the `uint32_t` return type of `ringbuffer_data_available`,
and of the platform's 32-bit `size_t` buffer size. -/
def U32 : Nat := 2 ^ 32

/-- `ringbuffer_t`: a byte buffer of `size` bytes with monotonically growing
64-bit indices, each kept reduced modulo `U64`. -/
structure ringbuffer_t where
  size : Nat
  buffer : Nat → Nat
  write_index : Nat
  read_index : Nat

/-- The `uint64_t` difference `rb->write_index - rb->read_index` computed
inside `ringbuffer_data_available`. -/
def ringbuffer_index_difference (rb : ringbuffer_t) : Nat :=
  (U64 + rb.write_index - rb.read_index) % U64

/-- `ringbuffer_data_available`: the function is declared to return
`uint32_t`, so the 64-bit index difference is truncated modulo 2^32 on
return. -/
def ringbuffer_data_available (rb : ringbuffer_t) : Nat :=
  ringbuffer_index_difference rb % U32

/-- `ringbuffer_full`. -/
def ringbuffer_full (rb : ringbuffer_t) : Bool :=
  decide (ringbuffer_data_available rb ≥ rb.size)

/-- `ringbuffer_empty`. -/
def ringbuffer_empty (rb : ringbuffer_t) : Bool :=
  decide (ringbuffer_data_available rb = 0)

/-- `ringbuffer_enqueue`: ENOMEM when full, else store the byte at
`write_index % size` and advance the write index. -/
def ringbuffer_enqueue (rb : ringbuffer_t) (element : Nat) : Int × ringbuffer_t :=
  if ringbuffer_full rb then (ENOMEM, rb)
  else
    let write_index := rb.write_index
    (0, { rb with
        buffer := upd rb.buffer (write_index % rb.size) (element % 256),
        write_index := (rb.write_index + 1) % U64 })

/-- `ringbuffer_dequeue`: -1 when empty, else return the byte at
`read_index % size` and advance the read index. -/
def ringbuffer_dequeue (rb : ringbuffer_t) : Int × ringbuffer_t :=
  if ringbuffer_empty rb then (-1, rb)
  else
    (Int.ofNat (rb.buffer (rb.read_index % rb.size)),
      { rb with read_index := (rb.read_index + 1) % U64 })

/-- `ringbuffer_enqueue_overwrite`: drop the oldest element first if full. -/
def ringbuffer_enqueue_overwrite (rb : ringbuffer_t) (element : Nat) : Int × ringbuffer_t :=
  let rb := if ringbuffer_full rb then (ringbuffer_dequeue rb).2 else rb
  ringbuffer_enqueue rb element

/-- The state after `n` consecutive dequeues (results discarded). -/
def ringbuffer_dequeueN (n : Nat) (rb : ringbuffer_t) : ringbuffer_t :=
  (fun rb => (ringbuffer_dequeue rb).2)^[n] rb

end Ringbuffer

/-! ## Main-PLL bring-up failure accounting (platform_clock.c) -/

namespace Libgreat

/-- `platform_clock_max_bringup_attempts` (platform_clock.c line 17). -/
def platform_clock_max_bringup_attempts : Nat := 5

/-- `config->failure_count += 1` where `failure_count` is declared `bool`
(platform_clock.c line 88): the integer sum is converted back to `_Bool`, so
the field becomes true whenever the sum is non-zero — it saturates at 1
instead of counting. -/
def pll_failure_count_increment (failure_count : Bool) : Bool :=
  decide (failure_count.toNat + 1 ≠ 0)

/-- The refusal guard at the head of `platform_bring_up_main_pll` (line 1437):
`failure_count > platform_clock_max_bringup_attempts`, with the `bool` field
integer-promoted for the comparison. -/
def platform_main_pll_bringup_refused (failure_count : Bool) : Bool :=
  decide (failure_count.toNat > platform_clock_max_bringup_attempts)

/-- One call of `platform_bring_up_main_pll`, restricted to its effect on the
per-PLL `failure_count` (lines 1437-1487): refusal returns ETIMEDOUT with the
count untouched; a lock inside the timeout returns 0; a lock timeout returns
ETIMEDOUT after `failure_count += 1`.  PLL parameter programming and register
waits are environment interaction abstracted into `locks_in_time`. -/
def platform_bring_up_main_pll_attempt (locks_in_time : Bool) (failure_count : Bool) :
    Int × Bool :=
  if platform_main_pll_bringup_refused failure_count then (ETIMEDOUT, failure_count)
  else if locks_in_time then (0, failure_count)
  else (ETIMEDOUT, pll_failure_count_increment failure_count)

/-- The PLL1 `failure_count` after `n` consecutive bring-up attempts that all
time out, starting from the reset value false. -/
def main_pll_failure_count_after (n : Nat) : Bool :=
  (fun failure_count => (platform_bring_up_main_pll_attempt false failure_count).2)^[n] false

/-! ## Concrete configurations used by the claim theorems -/

/-- A STREAM_OUT function with no shift limit: a 1-bit bus on SGPIO0 (SCU pin
P0_0, function 3), a 1 MHz local shift clock and a 4-byte ring buffer. -/
def c1_stream_out_function : SgpioFunction :=
  { enabled := true, mode := SgpioMode.stream_data_out,
    pin_configurations := [{ sgpio_pin := 0, scu_group := 0, scu_pin := 0 }], bus_width := 1,
    shift_clock_source := SGPIO_CLOCK_SOURCE_COUNTER,
    shift_clock_frequency := 1000000, buffer_order := 2, shift_count_limit := 0 }

def c1_context : Sgpio := { functions := [c1_stream_out_function] }

/-- Two STREAM_IN functions with no shift limits, on SGPIO0 and SGPIO1: both
require an ISR under the code's own `sgpio_isr_necessary_for_function`. -/
def c2_first_function : SgpioFunction :=
  { enabled := true, mode := SgpioMode.stream_data_in,
    pin_configurations := [{ sgpio_pin := 0, scu_group := 0, scu_pin := 0 }], bus_width := 1,
    shift_clock_source := SGPIO_CLOCK_SOURCE_COUNTER,
    shift_clock_frequency := 1000000, buffer_order := 2 }

def c2_second_function : SgpioFunction :=
  { enabled := true, mode := SgpioMode.stream_data_in,
    pin_configurations := [{ sgpio_pin := 1, scu_group := 0, scu_pin := 1 }], bus_width := 1,
    shift_clock_source := SGPIO_CLOCK_SOURCE_COUNTER,
    shift_clock_frequency := 1000000, buffer_order := 2 }

def c2_context : Sgpio := { functions := [c2_first_function, c2_second_function] }

/-- The spec's scenario S5: STREAM_IN, 1-bit bus on SGPIO0, a 1024-byte buffer
(order 10) and `shift_count_limit = 100`.  The optimizer grows the chain to
the full 8 slices, whose true shifts-per-swap is 256. -/
def c4_shift_limit_function : SgpioFunction :=
  { enabled := true, mode := SgpioMode.stream_data_in,
    pin_configurations := [{ sgpio_pin := 0, scu_group := 0, scu_pin := 0 }], bus_width := 1,
    shift_clock_source := SGPIO_CLOCK_SOURCE_COUNTER,
    shift_clock_frequency := 1000000, buffer_order := 10, shift_count_limit := 100 }

def c4_context : Sgpio := { functions := [c4_shift_limit_function] }

/-- The spec's scenario S1: one CLOCK_GEN function on SGPIO8 (SCU pin P1_1,
function 3) asking for a 10 MHz clock from a 200 MHz SGPIO branch clock. -/
def c8_clock_gen_function : SgpioFunction :=
  { enabled := true, mode := SgpioMode.clock_generation,
    pin_configurations := [{ sgpio_pin := 8, scu_group := 1, scu_pin := 1 }], bus_width := 1,
    shift_clock_source := SGPIO_CLOCK_SOURCE_COUNTER,
    shift_clock_frequency := 10000000 }

def c8_context : Sgpio := { functions := [c8_clock_gen_function] }

/-! ## Spec-side definitions and remaining concrete inputs -/

/-- Rounding to the nearest integer (halves up), the reading of "round" in the
claim about the LOCAL shift-clock divisor; compared against the truncating
division the code performs. -/
def round_to_nearest (a b : Nat) : Nat := (2 * a + b) / (2 * b)

/-- A LOCAL-clock function requesting 6 Hz; against a 10 Hz branch clock the
rounded divisor would be 2 while truncation yields 1. -/
def c5_request_function : SgpioFunction :=
  { shift_clock_source := SGPIO_CLOCK_SOURCE_COUNTER, shift_clock_frequency := 6 }

/-- A LOCAL-clock function requesting 10 Hz, used to witness the amended C5
statement against a 204 Hz branch clock. -/
def c5_witness_function : SgpioFunction :=
  { shift_clock_source := SGPIO_CLOCK_SOURCE_COUNTER, shift_clock_frequency := 10 }

/-- Slice `i` is marked in the context's used mask. -/
def sgpio_slice_in_use (sgpio : Sgpio) (i : Nat) : Prop :=
  sgpio.slices_in_use &&& (1 <<< i) ≠ 0

/-- Slice `i` is free-running: shift clock enabled and the
stop-on-next-buffer-swap bit clear. -/
def sgpio_slice_freerunning (sgpio : Sgpio) (i : Nat) : Prop :=
  sgpio.reg.stop_on_next_buffer_swap &&& (1 <<< i) = 0 ∧
  sgpio.reg.shift_clock_enable &&& (1 <<< i) ≠ 0

/-- C6's reading of `running(ctx)`, formalized from the claim sentence: some
used slice has its shift clock enabled and either does not terminate (stop
bit clear) or still has a non-zero cycle count. -/
def sgpio_running_per_claim (sgpio : Sgpio) : Prop :=
  ∃ i, i < SGPIO_NUM_SLICES ∧ sgpio_slice_in_use sgpio i ∧
    sgpio.reg.shift_clock_enable &&& (1 <<< i) ≠ 0 ∧
    (sgpio.reg.stop_on_next_buffer_swap &&& (1 <<< i) = 0 ∨ sgpio.reg.cycle_count i ≠ 0)

/-- The scan of `sgpio_running` terminates at slice `i` with result true:
either the free-running branch returns a true `running` flag, or the
cycle-count branch fires. -/
def sgpio_running_scan_hit (sgpio : Sgpio) (i : Nat) : Prop :=
  sgpio_slice_in_use sgpio i ∧
  ((sgpio_slice_freerunning sgpio i ∧ sgpio.running = true) ∨
   (¬sgpio_slice_freerunning sgpio i ∧ sgpio.reg.cycle_count i ≠ 0))

/-- The scan of `sgpio_running` passes over slice `i` without returning. -/
def sgpio_running_scan_skip (sgpio : Sgpio) (i : Nat) : Prop :=
  sgpio_slice_in_use sgpio i →
    (¬sgpio_slice_freerunning sgpio i ∧ sgpio.reg.cycle_count i = 0)

/-- C6's counterexample context: slice A is in use with its shift clock
enabled and stop bit clear, every cycle count is zero, and the stored
`running` flag is false. -/
def c6_context : Sgpio :=
  { running := false, slices_in_use := 1,
    reg := { sgpio_reset_register_state with shift_clock_enable := 1 } }

/-- C7's witness function: a STREAM_IN function with a shift limit whose I/O
slice (A) shows a manual halt in the witness context below. -/
def c7_function : SgpioFunction :=
  { mode := SgpioMode.stream_data_in, shift_count_limit := 8, buffer_order := 4 }

/-- C7's witness context: slice A's swap control still reads
`shifts_per_buffer_swap = 31`, i.e. no shift-limit termination. -/
def c7_context : Sgpio :=
  { reg := { sgpio_reset_register_state with
      data_buffer_swap_control :=
        upd (fun _ => {}) 0 { shifts_per_buffer_swap := 31, shifts_remaining := 7 },
      data_shadow := fun _ => 0xAABBCCDD } }

/-- An arbitrary caller buffer for the C7 witness. -/
def c7_data_buffer : Nat → Nat := fun _ => 0

end Libgreat

namespace Ringbuffer

/-- A concrete ring buffer holding one unread byte in a 2-byte buffer, used to
witness the ring-buffer contract. -/
def c9_ringbuffer : ringbuffer_t :=
  { size := 2, buffer := fun _ => 0, write_index := 1, read_index := 0 }

end Ringbuffer

/-!
# Theorems

The claim theorems and their supporting lemmas.  Definitions above mirror the
C sources; everything below is proved about those definitions.
-/

namespace Libgreat

/-- Reading back the slot just written in an index-addressed register file. -/
theorem upd_self {α : Type} (f : Nat → α) (i : Nat) (v : α) : upd f i v i = v := by
  simp [upd]

/-- C10: the pin-to-I/O-slice mapping is a permutation of the 16 slices and the
two lookups are mutually inverse; any pin index at or above 16 makes
`sgpio_slice_for_io` return a negative error rather than indexing the table. -/
theorem sgpio_io_maps_are_inverse_permutations :
    (∀ p : Fin 16, 0 ≤ sgpio_slice_for_io p ∧ sgpio_slice_for_io p < 16 ∧
      sgpio_io_pin_for_slice (sgpio_slice_for_io p).toNat = Int.ofNat p) ∧
    (∀ s : Fin 16, 0 ≤ sgpio_io_pin_for_slice s ∧ sgpio_io_pin_for_slice s < 16 ∧
      sgpio_slice_for_io (sgpio_io_pin_for_slice s).toNat = Int.ofNat s) ∧
    (∀ n : Nat, 16 ≤ n → sgpio_slice_for_io n < 0) := by
  refine ⟨by decide, by decide, ?_⟩
  intro n h
  simp only [sgpio_slice_for_io, SGPIO_NUM_PINS, EINVAL]
  rw [if_pos h]
  decide

/-- Witness for C10's conditional part, at the concrete out-of-range pin 20. -/
theorem sgpio_io_maps_are_inverse_permutations_witness :
    sgpio_slice_for_io 20 < 0 :=
  sgpio_io_maps_are_inverse_permutations.2.2 20 (by decide)

/-- C1: the claim says every STREAM_OUT function without a shift limit needs an
ISR and gets its `swap_irqs_required` bit set.  The code instead decides that
no ISR is necessary for any non-FIXED output stream — the branch of
`sgpio_data_buffer_fits_in_sgpio_slice_chain` whose own comment reads "we
definitely can't fit all of it in our slice chain" returns true ("fits") — so
`sgpio_set_up_functions` accepts this configuration, emits nothing, and
leaves `swap_irqs_required = 0`. -/
theorem stream_out_without_limit_generates_no_isr :
    sgpio_isr_necessary_for_function c1_stream_out_function = false ∧
    (sgpio_set_up_functions c1_context 204000000).1 = 0 ∧
    (sgpio_set_up_functions c1_context 204000000).2.swap_irqs_required = 0 := by
  refine ⟨by decide, by decide, by decide⟩

/-- C2: the claim says a context with two ISR-requiring functions makes
`set_up_functions` return a non-zero error.  The multiple-ISR gate in
`sgpio_generate_data_shuttle_isr` only prints "bailing out" and then falls
through: with two ISR-requiring STREAM_IN functions the call returns 0
(success), and `swap_irqs_required` ends up holding only the second
function's I/O-slice bit (slice I, bit 8 = 256). -/
theorem second_isr_requiring_function_does_not_fail :
    sgpio_isr_necessary_for_function c2_first_function = true ∧
    sgpio_isr_necessary_for_function c2_second_function = true ∧
    (sgpio_set_up_functions c2_context 204000000).1 = 0 ∧
    (sgpio_set_up_functions c2_context 204000000).2.swap_irqs_required = 256 := by
  refine ⟨by decide, by decide, by decide, by decide⟩

/-- C3: the claim says each lock timeout increments the per-PLL failure count
and that once it exceeds `max_bringup_attempts` (5) further bring-ups are
refused.  Since `failure_count` is declared `bool`, `+= 1` saturates it at
true after the very first timeout, and the guard `failure_count > 5` can
never hold: after any number of timed-out attempts the count reads 1 at most
and the refusal path is never taken. -/
theorem main_pll_bringup_never_refused (n : Nat) :
    main_pll_failure_count_after n = decide (0 < n) ∧
    platform_main_pll_bringup_refused (main_pll_failure_count_after n) = false := by
  have step : ∀ b : Bool,
      (platform_bring_up_main_pll_attempt false b).2 = pll_failure_count_increment b := by
    intro b
    cases b <;> rfl
  have sat : ∀ b : Bool, pll_failure_count_increment b = true := by
    intro b
    cases b <;> rfl
  have notrefused : ∀ b : Bool, platform_main_pll_bringup_refused b = false := by
    intro b
    cases b <;> rfl
  refine ⟨?_, notrefused _⟩
  induction n with
  | zero => rfl
  | succ k ih =>
    have h : main_pll_failure_count_after (k + 1) =
        (platform_bring_up_main_pll_attempt false (main_pll_failure_count_after k)).2 := by
      simp [main_pll_failure_count_after, Function.iterate_succ_apply']
    rw [h, step, sat]
    simp

/-- C4: the claim (and spec scenario S5) says a non-zero shift limit of 100 on
an 8-slice serial chain — shifts-per-swap 256 — is programmed into every
slice.  In `sgpio_apply_shift_limits` the value `(32 * 8) / 1 = 256` is
stored in a `uint8_t` and truncates to 0, so the comparison `100 <= 0` fails
and `sgpio_set_up_functions` returns ENOMEM (the CannotMeetShiftLimit error)
even though the limit genuinely fits the chain. -/
theorem full_serial_chain_shift_limit_rejected :
    c4_shift_limit_function.shift_count_limit ≤
      SGPIO_BITS_PER_SLICE * SGPIO_MAXIMUM_SLICE_CHAIN_DEPTH /
        c4_shift_limit_function.bus_width ∧
    ((sgpio_set_up_functions c4_context 204000000).2.functions.getD 0 {}).buffer_depth_order
      = 3 ∧
    (sgpio_set_up_functions c4_context 204000000).1 = ENOMEM := by
  refine ⟨by decide, by decide, by decide⟩

/-- C8 counterexample: the claim puts the scenario's I/O slice at B (index 1),
but the clockgen table `B,D,E,H,C,F,O,P,A,M,G,N,I,J,K,L` maps pin 8 to slice
A (index 0): after a successful `sgpio_set_up_functions` the function's
`io_slice` is 0, not `SGPIO_SLICE_B`. -/
theorem clock_gen_scenario_io_slice_counterexample :
    sgpio_slice_for_clockgen 8 = SGPIO_SLICE_A ∧
    (sgpio_set_up_functions c8_context 200000000).1 = 0 ∧
    ((sgpio_set_up_functions c8_context 200000000).2.functions.getD 0 {}).io_slice
      ≠ SGPIO_SLICE_B := by
  refine ⟨by decide, by decide, by decide⟩

/-- C8 amended: for the S1 scenario `sgpio_set_up_functions` succeeds with
`io_slice` = slice A (the clockgen-table entry for pin 8), a local divisor of
20 (cycles-per-shift register = 19), no generated ISR, and
`swap_irqs_required = 0`. -/
theorem clock_gen_scenario_s1 :
    (sgpio_set_up_functions c8_context 200000000).1 = 0 ∧
    ((sgpio_set_up_functions c8_context 200000000).2.functions.getD 0 {}).io_slice
      = SGPIO_SLICE_A ∧
    (sgpio_set_up_functions c8_context 200000000).2.reg.sgpio_cycles_per_shift_clock
      SGPIO_SLICE_A = 20 - 1 ∧
    sgpio_generate_isr_for_function
      ((sgpio_set_up_functions c8_context 200000000).2.functions.getD 0 {}) = none ∧
    (sgpio_set_up_functions c8_context 200000000).2.swap_irqs_required = 0 := by
  refine ⟨by decide, by decide, by decide, by decide, by decide⟩

/-- C5 counterexample: requesting 6 Hz from a 10 Hz branch clock succeeds and
programs a cycles-per-shift register of 0, i.e. a divisor of 1 — the
truncating `10 / 6` — while the claim's rounded divisor would be
`round(10 / 6) = 2`. -/
theorem local_clock_divisor_not_rounded_counterexample :
    (sgpio_set_up_clocking {} c5_request_function 0 10).1 = 0 ∧
    (sgpio_set_up_clocking {} c5_request_function 0 10).2.1.reg.sgpio_cycles_per_shift_clock 0
      + 1 = 1 ∧
    round_to_nearest 10 6 = 2 := by
  refine ⟨by decide, by decide, by decide⟩

/-- C5 amended: for a LOCAL shift-clock source, a zero requested frequency
uses divisor 1 (register 0) and writes the undivided branch clock back; a
non-zero request programs the truncating divisor `branch / desired`, failing
with EINVAL when that divisor is 0 (desired above the branch clock), and
writes the achieved `branch / divisor` back into `shift_clock_frequency`. -/
theorem local_clock_divisor_truncating (sgpio : Sgpio) (function : SgpioFunction)
    (slice branch : Nat)
    (h : function.shift_clock_source &&& SGPIO_CLOCK_SOURCE_TYPE_MASK
      = SGPIO_CLOCK_SOURCE_TYPE_LOCAL) :
    (function.shift_clock_frequency = 0 →
      (sgpio_set_up_clocking sgpio function slice branch).1 = 0 ∧
      (sgpio_set_up_clocking sgpio function slice branch).2.1.reg.sgpio_cycles_per_shift_clock
        slice = 0 ∧
      ((sgpio_set_up_clocking sgpio function slice branch).2.2).shift_clock_frequency
        = branch) ∧
    (function.shift_clock_frequency ≠ 0 → branch / function.shift_clock_frequency = 0 →
      (sgpio_set_up_clocking sgpio function slice branch).1 = EINVAL) ∧
    (function.shift_clock_frequency ≠ 0 → branch / function.shift_clock_frequency ≠ 0 →
      (sgpio_set_up_clocking sgpio function slice branch).1 = 0 ∧
      (sgpio_set_up_clocking sgpio function slice branch).2.1.reg.sgpio_cycles_per_shift_clock
        slice = branch / function.shift_clock_frequency - 1 ∧
      ((sgpio_set_up_clocking sgpio function slice branch).2.2).shift_clock_frequency
        = branch / (branch / function.shift_clock_frequency)) := by
  refine ⟨?_, ?_, ?_⟩
  · intro h0
    simp [sgpio_set_up_clocking, h, h0, setShiftConfig, setFeatureControl, upd_self]
  · intro h0 hd
    simp [sgpio_set_up_clocking, h, h0, hd, setShiftConfig, setFeatureControl]
  · intro h0 hd
    simp [sgpio_set_up_clocking, h, h0, hd, setShiftConfig, setFeatureControl, upd_self]

/-- Witness for C5's amended statement: 10 Hz requested from a 204 Hz branch
clock programs the truncating divisor 20 and writes back 204/20 = 10 Hz. -/
theorem local_clock_divisor_truncating_witness :
    (sgpio_set_up_clocking {} c5_witness_function 0 204).1 = 0 ∧
    (sgpio_set_up_clocking {} c5_witness_function 0 204).2.1.reg.sgpio_cycles_per_shift_clock 0
      = 204 / 10 - 1 ∧
    ((sgpio_set_up_clocking {} c5_witness_function 0 204).2.2).shift_clock_frequency
      = 204 / (204 / 10) :=
  (local_clock_divisor_truncating {} c5_witness_function 0 204 (by decide)).2.2
    (by decide) (by decide)

/-- C6 counterexample: in `c6_context` slice A is in use with its shift clock
on and stop bit clear, so the claim's predicate holds — yet `sgpio_running`
returns the stored `running` flag for such a slice, here false. -/
theorem sgpio_running_flag_counterexample :
    sgpio_running c6_context = false ∧ sgpio_running_per_claim c6_context := by
  refine ⟨by decide, ⟨0, by decide, ?_, by decide, Or.inl (by decide)⟩⟩
  unfold sgpio_slice_in_use
  decide

/-- The scan of `sgpio_running_loop` over any ascending index range returns
true exactly when some index in the range hits (free-running with a true
`running` flag, or halted-clock slice with remaining cycles) and every
earlier in-range index is passed over. -/
theorem sgpio_running_loop_spec (sgpio : Sgpio) :
    ∀ n s, sgpio_running_loop sgpio (List.range' s n) = true ↔
      ∃ k, s ≤ k ∧ k < s + n ∧
        (∀ j, s ≤ j → j < k → sgpio_running_scan_skip sgpio j) ∧
        sgpio_running_scan_hit sgpio k := by
  intro n
  induction n with
  | zero =>
    intro s
    simp only [List.range', sgpio_running_loop]
    constructor
    · intro h
      exact absurd h (by simp)
    · rintro ⟨k, hk1, hk2, -, -⟩
      omega
  | succ m ih =>
    intro s
    rw [List.range'_succ]
    simp only [sgpio_running_loop]
    by_cases hu : sgpio.slices_in_use &&& (1 <<< s) = 0
    · rw [if_pos hu, ih]
      constructor
      · rintro ⟨k, hk1, hk2, hskip, hhit⟩
        refine ⟨k, by omega, by omega, ?_, hhit⟩
        intro j hj1 hj2
        rcases Nat.eq_or_lt_of_le hj1 with hj | hj
        · intro hjuse
          exact absurd hjuse (by simp [sgpio_slice_in_use, ← hj, hu])
        · exact hskip j hj hj2
      · rintro ⟨k, hk1, hk2, hskip, hhit⟩
        have hks : k ≠ s := by
          rintro rfl
          exact hhit.1 hu
        refine ⟨k, by omega, by omega, ?_, hhit⟩
        intro j hj1 hj2
        exact hskip j (by omega) hj2
    · rw [if_neg hu]
      by_cases hf : sgpio.reg.stop_on_next_buffer_swap &&& (1 <<< s) = 0 ∧
          sgpio.reg.shift_clock_enable &&& (1 <<< s) ≠ 0
      · rw [if_pos hf]
        constructor
        · intro hrun
          exact ⟨s, Nat.le_refl s, by omega, by omega, hu, Or.inl ⟨hf, hrun⟩⟩
        · rintro ⟨k, hk1, hk2, hskip, hhit⟩
          rcases Nat.eq_or_lt_of_le hk1 with hk | hk
          · subst hk
            rcases hhit.2 with ⟨-, hr⟩ | ⟨hnf, -⟩
            · exact hr
            · exact absurd hf hnf
          · exact absurd (hskip s (Nat.le_refl s) hk hu).1
              (by simp [sgpio_slice_freerunning, hf])
      · rw [if_neg hf]
        by_cases hc : sgpio.reg.cycle_count s ≠ 0
        · rw [if_pos hc]
          constructor
          · intro _
            exact ⟨s, Nat.le_refl s, by omega, by omega, hu, Or.inr ⟨hf, hc⟩⟩
          · intro _
            rfl
        · rw [if_neg hc]
          rw [ih]
          push_neg at hc
          constructor
          · rintro ⟨k, hk1, hk2, hskip, hhit⟩
            refine ⟨k, by omega, by omega, ?_, hhit⟩
            intro j hj1 hj2
            rcases Nat.eq_or_lt_of_le hj1 with hj | hj
            · subst hj
              intro _
              exact ⟨hf, hc⟩
            · exact hskip j hj hj2
          · rintro ⟨k, hk1, hk2, hskip, hhit⟩
            have hks : k ≠ s := by
              rintro rfl
              rcases hhit.2 with ⟨hfr, -⟩ | ⟨-, hcy⟩
              · exact hf hfr
              · exact hcy hc
            refine ⟨k, by omega, by omega, ?_, hhit⟩
            intro j hj1 hj2
            exact hskip j (by omega) hj2

/-- C6 amended: `running(ctx)` scans the used slices in ascending index order
and returns true exactly when the first slice that stops the scan does so
with a true result: a used free-running slice (shift clock on, stop bit
clear) yields the context's stored `running` flag, and otherwise a used
slice with `cycle_count != 0` yields true; all slices before it are passed
over (unused, or not free-running with an exhausted cycle count). -/
theorem sgpio_running_scan_characterization (sgpio : Sgpio) :
    sgpio_running sgpio = true ↔
      ∃ k, k < SGPIO_NUM_SLICES ∧
        (∀ j, j < k → sgpio_running_scan_skip sgpio j) ∧
        sgpio_running_scan_hit sgpio k := by
  rw [sgpio_running, List.range_eq_range', sgpio_running_loop_spec]
  constructor
  · rintro ⟨k, -, hk2, hskip, hhit⟩
    exact ⟨k, by omega, fun j hj => hskip j (by omega) hj, hhit⟩
  · rintro ⟨k, hk, hskip, hhit⟩
    exact ⟨k, by omega, by omega, fun j _ hj => hskip j hj, hhit⟩

/-- C7: when the I/O slice's swap control does not show shift-limit
termination — `shifts_per_buffer_swap != 0` or `cycle_count != 0`, i.e. a
manual halt — the residual-capture step copies nothing: the caller's buffer
and the function record (including `position_in_buffer`) are returned
unchanged. -/
theorem manual_halt_captures_nothing (sgpio : Sgpio) (function : SgpioFunction)
    (data_buffer : Nat → Nat)
    (h : (sgpio.reg.data_buffer_swap_control function.io_slice).shifts_per_buffer_swap ≠ 0 ∨
      sgpio.reg.cycle_count function.io_slice ≠ 0) :
    sgpio_capture_remaining_data_for_function sgpio function data_buffer
      = (function, data_buffer) := by
  simp only [sgpio_capture_remaining_data_for_function]
  rw [if_neg]
  tauto

/-- Witness for C7 at a concrete manually-halted context. -/
theorem manual_halt_captures_nothing_witness :
    sgpio_capture_remaining_data_for_function c7_context c7_function c7_data_buffer
      = (c7_function, c7_data_buffer) :=
  manual_halt_captures_nothing c7_context c7_function c7_data_buffer (Or.inl (by decide))

end Libgreat

namespace Ringbuffer

/-- The numeric value of the 64-bit index wrap bound. -/
theorem U64_eq : U64 = 18446744073709551616 := by
  unfold U64
  norm_num

/-- The numeric value of the 32-bit truncation bound. -/
theorem U32_eq : U32 = 4294967296 := by
  unfold U32
  norm_num

/-- A non-empty dequeue only advances the read index. -/
theorem dequeue_state (rb : ringbuffer_t) (h : ringbuffer_data_available rb ≠ 0) :
    (ringbuffer_dequeue rb).2 = { rb with read_index := (rb.read_index + 1) % U64 } := by
  simp [ringbuffer_dequeue, ringbuffer_empty, h]

/-- Advancing the read index by `n` positions removes `n` from the 64-bit
index difference, for `n` within that difference. -/
theorem avail_shift (w r n : Nat) (hw : w < U64) (hr : r < U64)
    (hn : n ≤ (U64 + w - r) % U64) :
    (U64 + w - (r + n) % U64) % U64 = (U64 + w - r) % U64 - n := by
  rw [U64_eq] at *
  omega

/-- `n` consecutive dequeues, for `n` within the 64-bit index difference, only
advance the read index by `n`.  The difference must sit below 2^32 so that
the `uint32_t` truncation in the code's emptiness test is invisible at every
intermediate state. -/
theorem dequeueN_state (rb : ringbuffer_t) (hw : rb.write_index < U64)
    (hr : rb.read_index < U64) (hdU : ringbuffer_index_difference rb < U32) :
    ∀ n, n ≤ ringbuffer_index_difference rb →
      ringbuffer_dequeueN n rb = { rb with read_index := (rb.read_index + n) % U64 } := by
  intro n
  induction n with
  | zero =>
    intro _
    show rb = _
    rw [Nat.add_zero, Nat.mod_eq_of_lt hr]
  | succ k ih =>
    intro hn
    have hk : k ≤ ringbuffer_index_difference rb := by omega
    have hiter : ringbuffer_dequeueN (k + 1) rb
        = (ringbuffer_dequeue (ringbuffer_dequeueN k rb)).2 := by
      simp [ringbuffer_dequeueN, Function.iterate_succ_apply']
    rw [hiter, ih hk]
    have hdiff : ringbuffer_index_difference
        { rb with read_index := (rb.read_index + k) % U64 }
        = ringbuffer_index_difference rb - k := by
      show (U64 + rb.write_index - (rb.read_index + k) % U64) % U64 = _
      exact avail_shift rb.write_index rb.read_index k hw hr hk
    have hne : ringbuffer_data_available
        { rb with read_index := (rb.read_index + k) % U64 } ≠ 0 := by
      unfold ringbuffer_data_available
      rw [hdiff, Nat.mod_eq_of_lt (by omega)]
      omega
    rw [dequeue_state _ hne]
    show ({ rb with read_index := ((rb.read_index + k) % U64 + 1) % U64 } : ringbuffer_t) = _
    have heq : ((rb.read_index + k) % U64 + 1) % U64 = (rb.read_index + (k + 1)) % U64 := by
      rw [U64_eq]
      omega
    rw [heq]

/-- A non-full enqueue increases the 64-bit index difference by exactly one. -/
theorem avail_enqueue (w r sz : Nat) (hw : w < U64) (hr : r < U64) (hsz : sz < U64)
    (hnf : (U64 + w - r) % U64 < sz) :
    (U64 + (w + 1) % U64 - r) % U64 = (U64 + w - r) % U64 + 1 := by
  rw [U64_eq] at *
  omega

/-- Draining exactly the 64-bit index difference moves the read index onto the
old write index. -/
theorem read_after_drain (w r : Nat) (hw : w < U64) (hr : r < U64) :
    (r + (U64 + w - r) % U64) % U64 = w := by
  rw [U64_eq] at *
  omega

/-- One element remains after an enqueue followed by a full drain of the
previously available data. -/
theorem avail_one (w : Nat) (hw : w < U64) : (U64 + (w + 1) % U64 - w) % U64 = 1 := by
  rw [U64_eq] at *
  omega

/-- C9: for any well-formed ring buffer (reduced 64-bit indices, a non-zero
size below the 32-bit `size_t` bound), (a) when not full — the index
difference `write_index - read_index` is below `size` — `ringbuffer_enqueue x`
returns 0 and, once the previously available elements are dequeued, the next
`ringbuffer_dequeue` returns `x` (the enqueue-then-dequeue round trip);
(b) when the code's own fullness test holds (the `uint32_t`-truncated
available count reaches `size`), `ringbuffer_enqueue` returns ENOMEM with the
buffer — indices included — unchanged; (c) when its emptiness test holds,
`ringbuffer_dequeue` returns -1 with the buffer unchanged. -/
theorem ringbuffer_contract (rb : ringbuffer_t) (x : Nat)
    (hw : rb.write_index < U64) (hr : rb.read_index < U64)
    (hs : 0 < rb.size) (hsU : rb.size < U32) (hx : x < 256) :
    (ringbuffer_index_difference rb < rb.size →
      (ringbuffer_enqueue rb x).1 = 0 ∧
      (ringbuffer_dequeue (ringbuffer_dequeueN (ringbuffer_data_available rb)
          (ringbuffer_enqueue rb x).2)).1 = Int.ofNat x) ∧
    (rb.size ≤ ringbuffer_data_available rb →
      ringbuffer_enqueue rb x = (Libgreat.ENOMEM, rb)) ∧
    (ringbuffer_data_available rb = 0 → ringbuffer_dequeue rb = (-1, rb)) := by
  have hU3264 : U32 < U64 := by
    rw [U32_eq, U64_eq]
    omega
  refine ⟨?_, ?_, ?_⟩
  · intro hnotfull
    -- the backlog is below size < 2^32, so the uint32_t truncation in
    -- ringbuffer_data_available is invisible on this state
    have hdU : ringbuffer_index_difference rb < U32 := by omega
    have havail : ringbuffer_data_available rb = ringbuffer_index_difference rb := by
      unfold ringbuffer_data_available
      exact Nat.mod_eq_of_lt hdU
    have hfull : ringbuffer_full rb = false := by
      simp only [ringbuffer_full, decide_eq_false_iff_not]
      omega
    set rb1 : ringbuffer_t :=
      { rb with
        buffer := Libgreat.upd rb.buffer (rb.write_index % rb.size) (x % 256),
        write_index := (rb.write_index + 1) % U64 } with hrb1
    have henq : ringbuffer_enqueue rb x = (0, rb1) := by
      rw [hrb1]
      simp [ringbuffer_enqueue, hfull]
    have hdiff1 : ringbuffer_index_difference rb1 = ringbuffer_index_difference rb + 1 :=
      avail_enqueue rb.write_index rb.read_index rb.size hw hr
        (Nat.lt_trans hsU hU3264) hnotfull
    have hdU1 : ringbuffer_index_difference rb1 < U32 := by omega
    have hw1 : rb1.write_index < U64 := by
      show (rb.write_index + 1) % U64 < U64
      exact Nat.mod_lt _ (by rw [U64_eq]; omega)
    have hdrain := dequeueN_state rb1 hw1 hr hdU1 (ringbuffer_data_available rb) (by omega)
    have hread : (rb1.read_index + ringbuffer_data_available rb) % U64 = rb.write_index := by
      rw [havail]
      exact read_after_drain rb.write_index rb.read_index hw hr
    refine ⟨by rw [henq], ?_⟩
    rw [henq]
    show (ringbuffer_dequeue (ringbuffer_dequeueN (ringbuffer_data_available rb) rb1)).1
      = Int.ofNat x
    rw [hdrain, hread]
    have hdiffs : ringbuffer_index_difference { rb1 with read_index := rb.write_index } = 1 :=
      avail_one rb.write_index hw
    have hne : ringbuffer_empty { rb1 with read_index := rb.write_index } = false := by
      simp only [ringbuffer_empty, ringbuffer_data_available, hdiffs,
        decide_eq_false_iff_not]
      rw [U32_eq]
      omega
    simp only [ringbuffer_dequeue, hne, Bool.false_eq_true, if_false]
    show Int.ofNat (Libgreat.upd rb.buffer (rb.write_index % rb.size) (x % 256)
        (rb.write_index % rb.size)) = Int.ofNat x
    rw [Libgreat.upd_self, Nat.mod_eq_of_lt hx]
  · intro hisfull
    have h : ringbuffer_full rb = true := by
      simp only [ringbuffer_full, decide_eq_true_eq]
      omega
    simp [ringbuffer_enqueue, h]
  · intro hempty
    have h : ringbuffer_empty rb = true := by
      simp only [ringbuffer_empty, decide_eq_true_eq, hempty]
    simp [ringbuffer_dequeue, h]

/-- Witness for C9 on a concrete two-byte ring buffer holding one unread
element, enqueueing the byte 7. -/
theorem ringbuffer_contract_witness :
    (ringbuffer_index_difference c9_ringbuffer < c9_ringbuffer.size →
      (ringbuffer_enqueue c9_ringbuffer 7).1 = 0 ∧
      (ringbuffer_dequeue (ringbuffer_dequeueN (ringbuffer_data_available c9_ringbuffer)
          (ringbuffer_enqueue c9_ringbuffer 7).2)).1 = Int.ofNat 7) ∧
    (c9_ringbuffer.size ≤ ringbuffer_data_available c9_ringbuffer →
      ringbuffer_enqueue c9_ringbuffer 7 = (Libgreat.ENOMEM, c9_ringbuffer)) ∧
    (ringbuffer_data_available c9_ringbuffer = 0 →
      ringbuffer_dequeue c9_ringbuffer = (-1, c9_ringbuffer)) :=
  ringbuffer_contract c9_ringbuffer 7 (by decide) (by decide) (by decide) (by decide)
    (by decide)

end Ringbuffer
